import Mathlib

/-!
Shallow embedding of the session / derived-state store of the
coherence-hub single-page application.

The embedded code lives in `src/store.ts` (the zustand store: the user
state vector `usv`, the derived scalars `ucs` and `recommendation`, chat
histories, tool states, toasts, schedules, and the actions mutating them)
and in `src/App.tsx` (the 5-second polling tick that fires due schedules).

Modelling conventions:
* JS `number` is modelled as `ℚ` (the store only ever does +, -, /, min,
  max and `Math.round` on these values); `Math.round x` is `⌊x + 1/2⌋`,
  which matches JS round-half-up semantics.
* `Date.now()` timestamps are passed in as an explicit `now : ℤ` argument.
* `Record<AgentId, Message[]>` is modelled as a total function
  `AgentId → List Message` (the store initialises every key).
* The opaque `Chat` handles from the external AI SDK are modelled as
  `Option Unit`: the store never inspects them beyond null-checks.
* `async` actions are split into their synchronous phases: the part that
  runs before the first `await`, and the continuation run once the awaited
  call settles, parameterised by the outcome `Except String String`
  (the `catch` branch receives the friendly error text produced by
  `getFriendlyErrorMessage`, an external collaborator).
* External collaborators that are not part of the store (the `AGENTS`
  constant table, `toolMetadata`, the regex extraction of the dosha name)
  are passed in as function parameters.
-/

/-- `UserStateVector` from `types.ts`: the four wellness dimensions
(`src/store.ts` initial state shows the exact field set). -/
structure UserStateVector where
  spiritual : ℚ
  emotional : ℚ
  physical : ℚ
  financial : ℚ
deriving DecidableEq

/-- The five agent identifiers used by `getRecommendation` and the
chat-history record in `src/store.ts`. -/
inductive AgentId where
  | COHERENCE
  | SELF_KNOWLEDGE
  | HEALTH
  | EMOTIONAL_FINANCE
  | INVESTMENTS
deriving DecidableEq

/-- The three top-level views switched in `App.tsx` `renderView`. -/
inductive View where
  | dashboard
  | agents
  | tools
deriving DecidableEq

/-- Message sender tag (`'user' | 'agent'`). -/
inductive Sender where
  | user
  | agent
deriving DecidableEq

/-- Chat `Message` as built throughout `src/store.ts`. -/
structure Message where
  id : String
  sender : Sender
  text : String
  timestamp : ℤ
deriving DecidableEq

/-- Schedule status values observed in `src/store.ts` (`'scheduled'`)
and `src/App.tsx` (`'completed'`); `types.ts` is not in the sources. -/
inductive ScheduleStatus where
  | scheduled
  | completed
deriving DecidableEq

/-- A user-created schedule (`addSchedule` builds `id` and `status`;
`App.tsx` reads `time` and `activity`). -/
structure Schedule where
  id : String
  time : ℤ
  activity : String
  status : ScheduleStatus
deriving DecidableEq

/-- The closed set of session kinds dispatched in `App.tsx`
`renderSession` and `src/store.ts` `startSession`. -/
inductive Session where
  | agent (id : AgentId)
  | meditation
  | content_analyzer
  | guided_prayer
  | prayer_pills
  | dissonance_analyzer
  | therapeutic_journal
  | quantum_simulator
  | phi_frontier_radar
  | dosha_diagnosis
  | wellness_visualizer
  | routine_aligner
  | belief_resignifier
  | emotional_spending_map
  | risk_calculator
  | archetype_journey
  | verbal_frequency_analysis
  | live_conversation
  | scheduled_session
  | scheduled_session_handler (schedule : Schedule)
  | guided_meditation_voice (schedule : Schedule)
deriving DecidableEq

/-- Toast severity (`'success' | 'error' | 'info'`). -/
inductive ToastType where
  | success
  | error
  | info
deriving DecidableEq

/-- `ToastMessage` as built by `addToast`. -/
structure ToastMessage where
  id : String
  message : String
  type : ToastType
deriving DecidableEq

/-- `toolStates.therapeuticJournal` sub-record. -/
structure JournalState where
  entry : String
  feedback : Option String
  error : Option String
deriving DecidableEq

/-- The shape shared by `toolStates.doshaDiagnosis` and
`toolStates.routineAligner`. -/
structure ChatToolState where
  messages : List Message
  isFinished : Bool
  error : Option String
deriving DecidableEq

/-- The `toolStates` record of the store.  The two chat-tool sub-states
are `Option`s because `src/store.ts` null-checks them before every
access. -/
structure ToolStates where
  therapeuticJournal : JournalState
  doshaDiagnosis : Option ChatToolState
  routineAligner : Option ChatToolState
  doshaResult : Option String
deriving DecidableEq

/-- The full `AppState` data fields of the zustand store
(`src/store.ts`, `interface AppState`, minus the action closures, which
are modelled as top-level functions below). -/
structure AppState where
  usv : UserStateVector
  ucs : ℤ
  recommendation : Option AgentId
  activeView : View
  currentSession : Option Session
  lastAgentContext : Option AgentId
  chatHistories : AgentId → List Message
  isLoadingMessage : Bool
  toolStates : ToolStates
  toasts : List ToastMessage
  doshaChat : Option Unit
  routineAlignerChat : Option Unit
  isOnboardingVisible : Bool
  schedules : List Schedule

/-- JS `Math.round`: round half toward positive infinity, i.e.
`⌊x + 1/2⌋`. -/
def jsRound (x : ℚ) : ℤ := ⌊x + (1 : ℚ) / 2⌋

/-- `calculateUcs` from `src/store.ts`: the average of spiritual,
inverted emotional, physical and financial, rounded with `Math.round`. -/
def calculateUcs (usv : UserStateVector) : ℤ :=
  jsRound ((usv.spiritual + (100 - usv.emotional) + usv.physical + usv.financial) / 4)

/-- One candidate row of the `dimensions` array in `getRecommendation`. -/
structure Dimension where
  key : AgentId
  value : ℚ
deriving DecidableEq

/-- The literal `dimensions` array built by `getRecommendation`
(`src/store.ts`), in source order. -/
def recommendationDimensions (usv : UserStateVector) : List Dimension :=
  [ ⟨AgentId.COHERENCE, usv.spiritual⟩,
    ⟨AgentId.HEALTH, usv.physical⟩,
    ⟨AgentId.EMOTIONAL_FINANCE, 100 - usv.emotional⟩,
    ⟨AgentId.INVESTMENTS, usv.financial⟩,
    ⟨AgentId.SELF_KNOWLEDGE, (usv.spiritual + (100 - usv.emotional)) / 2⟩ ]

/-- `dimensions.sort((a, b) => a.value - b.value)[0]`: the head of a
stable ascending sort is the first element attaining the minimal value,
computed here by a left fold that replaces the current best only on a
strictly smaller value. -/
def firstMin (best : Dimension) : List Dimension → Dimension
  | [] => best
  | d :: rest => firstMin (if d.value < best.value then d else best) rest

/-- `getRecommendation` from `src/store.ts`: the `key` of the dimension
with the lowest `value` (first one on ties, as JS `sort` is stable). -/
def getRecommendation (usv : UserStateVector) : AgentId :=
  match recommendationDimensions usv with
  | [] => AgentId.COHERENCE
  | d :: rest => (firstMin d rest).key

/-- The `useStore.subscribe` callback at the bottom of `src/store.ts`:
whenever the `usv` field differs from the previous state's, recompute
and store both derived scalars. -/
def subscribeUpdate (prevState state : AppState) : AppState :=
  if state.usv ≠ prevState.usv then
    { state with
        ucs := calculateUcs state.usv,
        recommendation := some (getRecommendation state.usv) }
  else state

/-- `onRehydrateStorage` from the persist options of `src/store.ts`:
recompute both derived scalars from the rehydrated `usv`. -/
def rehydrate (state : AppState) : AppState :=
  { state with
      ucs := calculateUcs state.usv,
      recommendation := some (getRecommendation state.usv) }

/-- Point update of the chat-history record: append `m` to agent `a`'s
history (the `draft.chatHistories[agentId].push(...)` pattern). -/
def pushMessage (h : AgentId → List Message) (a : AgentId) (m : Message) :
    AgentId → List Message :=
  fun a' => if a' = a then h a' ++ [m] else h a'

/-- `addToast` from `src/store.ts`: append a toast with id
`toast-${Date.now()}` to the end of the toast list. -/
def addToast (s : AppState) (message : String) (type : ToastType) (now : ℤ) :
    AppState :=
  { s with toasts := s.toasts ++ [ToastMessage.mk ("toast-" ++ toString now) message type] }

/-- `removeToast` from `src/store.ts`. -/
def removeToast (s : AppState) (id : String) : AppState :=
  { s with toasts := s.toasts.filter fun t => t.id ≠ id }

/-- The string form of an `AgentId`, used only inside generated message
ids (`types.ts` with the enum's string values is not in the sources, so
the enum names are used). -/
def agentIdKey : AgentId → String
  | AgentId.COHERENCE => "COHERENCE"
  | AgentId.SELF_KNOWLEDGE => "SELF_KNOWLEDGE"
  | AgentId.HEALTH => "HEALTH"
  | AgentId.EMOTIONAL_FINANCE => "EMOTIONAL_FINANCE"
  | AgentId.INVESTMENTS => "INVESTMENTS"

/-- `addInitialMessage` from `src/store.ts`.  `agents` models the
external `AGENTS` table as each agent's `initialMessage` (absent agent
and absent message both collapse to `none`; the empty string is JS-falsy
and also pushes nothing).  The message is pushed only onto an empty
history. -/
def addInitialMessage (agents : AgentId → Option String) (now : ℤ)
    (agentId : AgentId) (s : AppState) : AppState :=
  match agents agentId with
  | none => s
  | some msgText =>
    if msgText ≠ "" ∧ s.chatHistories agentId = [] then
      { s with chatHistories :=
          (pushMessage s.chatHistories agentId
            (Message.mk ("agent-initial-" ++ agentIdKey agentId) Sender.agent msgText now)) }
    else s

/-- The synchronous first phase of `handleSendMessage`
(`src/store.ts`): push the user's message and raise the loading flag,
before awaiting `generateAgentResponse`. -/
def handleSendMessageStart (s : AppState) (agentId : AgentId) (text : String)
    (now : ℤ) : AppState :=
  { s with
      chatHistories :=
        (pushMessage s.chatHistories agentId
          (Message.mk ("user-" ++ toString now) Sender.user text now)),
      isLoadingMessage := true }

/-- The continuation of `handleSendMessage` once the awaited API call
settles.  `outcome` is `.ok responseText` for a successful call and
`.error errorText` for a thrown error, where `errorText` is the friendly
message produced by `handleApiError` (which also pushes an error toast;
its `resetKey` side effect lives in the separate key store, outside
`AppState`).  The `finally` block clears the loading flag in both
branches. -/
def handleSendMessageSettle (s : AppState) (agentId : AgentId)
    (outcome : Except String String) (now : ℤ) : AppState :=
  match outcome with
  | Except.ok responseText =>
    { s with
        chatHistories :=
          (pushMessage s.chatHistories agentId
            (Message.mk ("agent-" ++ toString now) Sender.agent responseText now)),
        isLoadingMessage := false }
  | Except.error errorText =>
    let s1 := addToast s errorText ToastType.error now
    { s1 with
        chatHistories :=
          (pushMessage s1.chatHistories agentId
            (Message.mk ("agent-error-" ++ toString now) Sender.agent errorText now)),
        isLoadingMessage := false }

/-- The whole `handleSendMessage` run: start phase, then settle phase. -/
def handleSendMessage (s : AppState) (agentId : AgentId) (text : String)
    (outcome : Except String String) (now : ℤ) : AppState :=
  handleSendMessageSettle (handleSendMessageStart s agentId text now) agentId
    outcome now

/-- Pattern `pat` leads (is an initial segment of) the character list. -/
def charsLeads : List Char → List Char → Bool
  | [], _ => true
  | _ :: _, [] => false
  | a :: as, b :: bs => a == b && charsLeads as bs

/-- Pattern `pat` occurs somewhere in the character list. -/
def charsHas (pat : List Char) : List Char → Bool
  | [] => charsLeads pat []
  | c :: t => charsLeads pat (c :: t) || charsHas pat t

/-- JS `String.prototype.includes`. -/
def strIncludes (s pat : String) : Bool := charsHas pat.data s.data

/-- The synchronous prefix of `initDoshaChat` (`src/store.ts`), run
before its first `await`: raise the loading flag and reset the dosha
tool state. -/
def initDoshaChatPending (s : AppState) : AppState :=
  { s with
      isLoadingMessage := true,
      toolStates := { s.toolStates with doshaDiagnosis := some ⟨[], false, none⟩ } }

/-- The synchronous prefix of `initRoutineAlignerChat`
(`src/store.ts`), run before its first `await`. -/
def initRoutineAlignerChatPending (s : AppState) : AppState :=
  { s with
      isLoadingMessage := true,
      toolStates := { s.toolStates with routineAligner := some ⟨[], false, none⟩ } }

/-- `handleDoshaSendMessage` from `src/store.ts`.  When `doshaChat` is
null the action returns immediately.  Otherwise: push the user message,
raise the loading flag and clear the error (all inside the
`toolStates.doshaDiagnosis` null-check); then on `.ok responseText`
push the agent message, set `isFinished` from the
`"Dissonância Dominante"` substring test, and on a finished diagnosis
record the dosha extracted by `extractDosha` (the external regex match)
and toast; on `.error errorText` toast (via `handleApiError`) and store
the error.  The `finally` block clears the loading flag. -/
def handleDoshaSendMessage (extractDosha : String → Option String)
    (s : AppState) (text : String) (outcome : Except String String)
    (now : ℤ) : AppState :=
  match s.doshaChat with
  | none => s
  | some _ =>
    let s1 :=
      match s.toolStates.doshaDiagnosis with
      | none => s
      | some dd =>
        { s with
            toolStates := { s.toolStates with
              doshaDiagnosis := some { dd with
                messages := dd.messages ++
                  [(Message.mk ("user-" ++ toString now) Sender.user text now)],
                error := none } },
            isLoadingMessage := true }
    let s2 :=
      match outcome with
      | Except.ok responseText =>
        let finished := strIncludes responseText "Dissonância Dominante"
        match s1.toolStates.doshaDiagnosis with
        | none => s1
        | some dd =>
          let ddNew := { dd with
            messages := dd.messages ++
              [(Message.mk ("agent-" ++ toString now) Sender.agent responseText now)],
            isFinished := finished }
          let sMsg := { s1 with
            toolStates := { s1.toolStates with doshaDiagnosis := some ddNew } }
          if finished then
            match extractDosha responseText with
            | some dosha =>
              addToast
                { sMsg with
                    toolStates := { sMsg.toolStates with doshaResult := some dosha } }
                ("Diagnóstico concluído: Desequilíbrio de " ++ dosha ++ " detectado.")
                ToastType.info now
            | none => sMsg
          else sMsg
      | Except.error errorText =>
        let sT := addToast s1 errorText ToastType.error now
        match sT.toolStates.doshaDiagnosis with
        | none => sT
        | some dd =>
          { sT with
              toolStates := { sT.toolStates with
                doshaDiagnosis := some { dd with error := some errorText } } }
    { s2 with isLoadingMessage := false }

/-- `handleRoutineAlignerSendMessage` from `src/store.ts`: same shape as
the dosha handler, with the finish phrase
`"esta rotina é um algoritmo, não uma prisão"` and no result
extraction. -/
def handleRoutineAlignerSendMessage (s : AppState) (text : String)
    (outcome : Except String String) (now : ℤ) : AppState :=
  match s.routineAlignerChat with
  | none => s
  | some _ =>
    let s1 :=
      match s.toolStates.routineAligner with
      | none => s
      | some ra =>
        { s with
            toolStates := { s.toolStates with
              routineAligner := some { ra with
                messages := ra.messages ++
                  [(Message.mk ("user-" ++ toString now) Sender.user text now)],
                error := none } },
            isLoadingMessage := true }
    let s2 :=
      match outcome with
      | Except.ok responseText =>
        let finished := strIncludes responseText "esta rotina é um algoritmo, não uma prisão"
        match s1.toolStates.routineAligner with
        | none => s1
        | some ra =>
          { s1 with
              toolStates := { s1.toolStates with
                routineAligner := some { ra with
                  messages := ra.messages ++
                    [(Message.mk ("agent-" ++ toString now) Sender.agent responseText now)],
                  isFinished := finished } } }
      | Except.error errorText =>
        let sT := addToast s1 errorText ToastType.error now
        match sT.toolStates.routineAligner with
        | none => sT
        | some ra =>
          { sT with
              toolStates := { sT.toolStates with
                routineAligner := some { ra with error := some errorText } } }
    { s2 with isLoadingMessage := false }

/-- The in-place status write of `updateScheduleStatus`: JS
`schedules.find(s => s.id === scheduleId)` mutates the first schedule
with a matching id and leaves the rest untouched. -/
def setScheduleStatusFirst : List Schedule → String → ScheduleStatus → List Schedule
  | [], _, _ => []
  | sch :: rest, scheduleId, status =>
    if sch.id = scheduleId then { sch with status := status } :: rest
    else sch :: setScheduleStatusFirst rest scheduleId status

/-- `updateScheduleStatus` from `src/store.ts`. -/
def updateScheduleStatus (s : AppState) (scheduleId : String)
    (status : ScheduleStatus) : AppState :=
  { s with schedules := setScheduleStatusFirst s.schedules scheduleId status }

/-- The optional physical/emotional payload of `updateUsvDimensions`
(`Partial<Pick<UserStateVector, 'physical' | 'emotional'>>`). -/
structure UsvUpdates where
  physical : Option ℚ
  emotional : Option ℚ

/-- JS `Math.max(0, Math.min(100, x))`. -/
def clampTo100 (x : ℚ) : ℚ := max 0 (min 100 x)

/-- `updateUsvDimensions` from `src/store.ts`: clamp each supplied
dimension into `[0, 100]`; a dimension that is `undefined` is left
alone, and only `physical` and `emotional` are ever touched. -/
def updateUsvDimensions (s : AppState) (updates : UsvUpdates) : AppState :=
  let usv1 :=
    match updates.physical with
    | some v => { s.usv with physical := clampTo100 v }
    | none => s.usv
  let usv2 :=
    match updates.emotional with
    | some v => { usv1 with emotional := clampTo100 v }
    | none => usv1
  { s with usv := usv2 }

/-- `startSession` from `src/store.ts` (its synchronous effect).  For
`dosha_diagnosis` / `routine_aligner` sessions the un-awaited init
action's synchronous prefix runs first; an `agent` session also records
`lastAgentContext` and adds the agent's initial message; every session
becomes `currentSession`. -/
def startSession (agents : AgentId → Option String) (now : ℤ)
    (s : AppState) (session : Session) : AppState :=
  let s1 :=
    match session with
    | Session.dosha_diagnosis => initDoshaChatPending s
    | Session.routine_aligner => initRoutineAlignerChatPending s
    | _ => s
  match session with
  | Session.agent id =>
    addInitialMessage agents now id
      { s1 with currentSession := some session, lastAgentContext := some id }
  | _ => { s1 with currentSession := some session }

/-- `endSession` from `src/store.ts`. -/
def endSession (s : AppState) : AppState := { s with currentSession := none }

/-- One run of the `checkSchedulesInterval` callback in `src/App.tsx`:
if a session is active, do nothing; otherwise find the first schedule
that is `'scheduled'` and due (`time <= now`); if one exists, mark it
`'completed'`, toast (the activity title comes from the external
`toolMetadata` table, falling back to `"sessão"`), and start a
`scheduled_session_handler` session carrying the found schedule. -/
def checkSchedulesTick (agents : AgentId → Option String)
    (toolMetadata : String → Option String) (s : AppState) (now : ℤ) :
    AppState :=
  if s.currentSession.isSome then s
  else
    match s.schedules.find? (fun sch =>
        decide (sch.status = ScheduleStatus.scheduled) && decide (sch.time ≤ now)) with
    | none => s
    | some dueSchedule =>
      let s1 := updateScheduleStatus s dueSchedule.id ScheduleStatus.completed
      let activityName := (toolMetadata dueSchedule.activity).getD "sessão"
      let s2 := addToast s1
        ("Seu mentor está ligando para a sua " ++ activityName ++ ".")
        ToastType.info now
      startSession agents now s2 (Session.scheduled_session_handler dueSchedule)

/-- One entry value of `Object.entries(state)`.  Action closures are
opaque (`actionV`); every data field has a constructor of its type. -/
inductive EntryVal where
  | usvV (v : UserStateVector)
  | intV (v : ℤ)
  | agentOptV (v : Option AgentId)
  | viewV (v : View)
  | sessionV (v : Option Session)
  | chatsV (v : AgentId → List Message)
  | boolV (v : Bool)
  | toolsV (v : ToolStates)
  | toastsV (v : List ToastMessage)
  | chatHandleV (v : Option Unit)
  | schedV (v : List Schedule)
  | actionV

/-- `Object.entries(state)` for the store: the data fields in
declaration order, then the action members (functions, opaque here), as
laid out in `src/store.ts`. -/
def stateEntries (s : AppState) : List (String × EntryVal) :=
  [ ("usv", EntryVal.usvV s.usv),
    ("ucs", EntryVal.intV s.ucs),
    ("recommendation", EntryVal.agentOptV s.recommendation),
    ("activeView", EntryVal.viewV s.activeView),
    ("currentSession", EntryVal.sessionV s.currentSession),
    ("lastAgentContext", EntryVal.agentOptV s.lastAgentContext),
    ("chatHistories", EntryVal.chatsV s.chatHistories),
    ("isLoadingMessage", EntryVal.boolV s.isLoadingMessage),
    ("toolStates", EntryVal.toolsV s.toolStates),
    ("toasts", EntryVal.toastsV s.toasts),
    ("doshaChat", EntryVal.chatHandleV s.doshaChat),
    ("routineAlignerChat", EntryVal.chatHandleV s.routineAlignerChat),
    ("isOnboardingVisible", EntryVal.boolV s.isOnboardingVisible),
    ("schedules", EntryVal.schedV s.schedules),
    ("setView", EntryVal.actionV),
    ("startSession", EntryVal.actionV),
    ("endSession", EntryVal.actionV),
    ("switchAgent", EntryVal.actionV),
    ("addInitialMessage", EntryVal.actionV),
    ("handleSendMessage", EntryVal.actionV),
    ("handleDoshaSendMessage", EntryVal.actionV),
    ("initDoshaChat", EntryVal.actionV),
    ("handleRoutineAlignerSendMessage", EntryVal.actionV),
    ("initRoutineAlignerChat", EntryVal.actionV),
    ("setToolState", EntryVal.actionV),
    ("addToast", EntryVal.actionV),
    ("removeToast", EntryVal.actionV),
    ("closeOnboarding", EntryVal.actionV),
    ("addSchedule", EntryVal.actionV),
    ("updateScheduleStatus", EntryVal.actionV),
    ("updateUsvDimensions", EntryVal.actionV),
    ("goBackToAgentRoom", EntryVal.actionV) ]

/-- The keys dropped by the persist `partialize` option. -/
def persistExcludedKeys : List String := ["doshaChat", "routineAlignerChat"]

/-- The `partialize` option of `src/store.ts`: keep every entry whose
key is not in the excluded list. -/
def partialize (entries : List (String × EntryVal)) : List (String × EntryVal) :=
  entries.filter fun kv => !(persistExcludedKeys.contains kv.1)

/-- The initial store state from `src/store.ts`. -/
def initialState : AppState where
  usv := ⟨75, 40, 60, 50⟩
  ucs := 61
  recommendation := some AgentId.EMOTIONAL_FINANCE
  activeView := View.dashboard
  currentSession := none
  lastAgentContext := none
  chatHistories := fun _ => []
  isLoadingMessage := false
  toolStates :=
    { therapeuticJournal := ⟨"", none, none⟩,
      doshaDiagnosis := some ⟨[], false, none⟩,
      routineAligner := some ⟨[], false, none⟩,
      doshaResult := none }
  toasts := []
  doshaChat := none
  routineAlignerChat := none
  isOnboardingVisible := true
  schedules := []

/-- Witness states used by concrete instantiations below. -/
def stateA : AppState := initialState

/-- `stateA` with a changed user state vector. -/
def stateB : AppState := { initialState with usv := ⟨80, 40, 60, 50⟩ }

/-- A due schedule used in concrete runs of the polling tick. -/
def dueScheduleW : Schedule :=
  ⟨"schedule-2", 30, "meditation", ScheduleStatus.scheduled⟩

/-- An idle state (no active session) holding one due schedule. -/
def idleStateW : AppState := { initialState with schedules := [dueScheduleW] }

/-- A due schedule for the tick counterexample. -/
def dueScheduleCex : Schedule :=
  ⟨"schedule-1", 50, "meditation", ScheduleStatus.scheduled⟩

/-- A state with an active session and one due schedule. -/
def busyStateCex : AppState :=
  { initialState with
      currentSession := some Session.meditation,
      schedules := [dueScheduleCex] }

/-- A user state vector whose four fields are a permutation of
`usvSameAvgB`'s. -/
def usvSameAvgA : UserStateVector := ⟨10, 50, 20, 30⟩

/-- A user state vector whose four fields are a permutation of
`usvSameAvgA`'s. -/
def usvSameAvgB : UserStateVector := ⟨30, 50, 10, 20⟩

/-- A state with one message already in every chat history. -/
def chattyState : AppState :=
  { initialState with
      chatHistories := fun _ => [Message.mk "m1" Sender.user "olá" 0] }

-- Helper lemmas --------------------------------------------------------

/-- `firstMin` returns an element of `best :: l` whose value is minimal
over `best :: l`. -/
lemma firstMin_spec (l : List Dimension) (best : Dimension) :
    (firstMin best l = best ∨ firstMin best l ∈ l) ∧
    (firstMin best l).value ≤ best.value ∧
    ∀ x ∈ l, (firstMin best l).value ≤ x.value := by
  induction l generalizing best with
  | nil => simp [firstMin]
  | cons d rest ih =>
    obtain ⟨hmem, hbest, hall⟩ := ih (if d.value < best.value then d else best)
    refine ⟨?_, ?_, ?_⟩
    · rcases hmem with h | h
      · by_cases hc : d.value < best.value
        · right
          rw [firstMin, h, if_pos hc]
          exact List.mem_cons_self d rest
        · left
          rw [firstMin, h, if_neg hc]
      · right
        exact List.mem_cons_of_mem d h
    · by_cases hc : d.value < best.value
      · rw [firstMin]
        calc (firstMin (if d.value < best.value then d else best) rest).value
            ≤ (if d.value < best.value then d else best).value := hbest
          _ ≤ best.value := by rw [if_pos hc]; exact le_of_lt hc
      · rw [firstMin]
        calc (firstMin (if d.value < best.value then d else best) rest).value
            ≤ (if d.value < best.value then d else best).value := hbest
          _ ≤ best.value := by rw [if_neg hc]
    · intro x hx
      rcases List.mem_cons.mp hx with h | hx'
      · subst h
        by_cases hc : x.value < best.value
        · rw [firstMin]
          calc (firstMin (if x.value < best.value then x else best) rest).value
              ≤ (if x.value < best.value then x else best).value := hbest
            _ ≤ x.value := by rw [if_pos hc]
        · rw [firstMin]
          calc (firstMin (if x.value < best.value then x else best) rest).value
              ≤ (if x.value < best.value then x else best).value := hbest
            _ ≤ x.value := by rw [if_neg hc]; exact le_of_not_lt hc
      · exact hall x hx'

/-- `getRecommendation` returns the key of a dimension of minimal value
among the five candidates. -/
lemma getRecommendation_isArgmin (usv : UserStateVector) :
    ∃ d ∈ recommendationDimensions usv, getRecommendation usv = d.key ∧
      ∀ x ∈ recommendationDimensions usv, d.value ≤ x.value := by
  obtain ⟨hmem, hbest, hall⟩ :=
    firstMin_spec (recommendationDimensions usv).tail
      ⟨AgentId.COHERENCE, usv.spiritual⟩
  refine ⟨firstMin ⟨AgentId.COHERENCE, usv.spiritual⟩ (recommendationDimensions usv).tail,
    ?_, rfl, ?_⟩
  · rcases hmem with h | h
    · rw [h]; simp [recommendationDimensions]
    · simp only [recommendationDimensions] at h ⊢
      simp only [List.tail_cons] at h
      exact List.mem_cons_of_mem _ h
  · intro x hx
    simp only [recommendationDimensions] at hx
    rcases List.mem_cons.mp hx with rfl | hx'
    · exact hbest
    · exact hall x (by simpa [recommendationDimensions] using hx')

/-- Decomposition of a successful `find?`: the list splits as a prefix
of elements failing the predicate, the found element, and a suffix. -/
lemma findEqSomeDecomp {α : Type} (p : α → Bool) :
    ∀ (l : List α) (a : α), l.find? p = some a →
      ∃ l₁ l₂, l = l₁ ++ a :: l₂ ∧ ∀ x ∈ l₁, p x = false := by
  intro l
  induction l with
  | nil => intro a h; simp at h
  | cons b t ih =>
    intro a h
    cases hb : p b with
    | true =>
      rw [List.find?_cons_of_pos _ hb] at h
      obtain rfl : b = a := by injection h
      exact ⟨[], t, rfl, by simp⟩
    | false =>
      rw [List.find?_cons_of_neg _ (by simp [hb])] at h
      obtain ⟨l₁, l₂, rfl, hall⟩ := ih a h
      refine ⟨b :: l₁, l₂, rfl, ?_⟩
      intro x hx
      rcases List.mem_cons.mp hx with rfl | hx'
      · exact hb
      · exact hall x hx'

/-- `setScheduleStatusFirst` rewrites exactly the first schedule with
the matching id when no earlier schedule carries it. -/
lemma setScheduleStatusFirst_append (l₁ : List Schedule) (y : Schedule)
    (l₂ : List Schedule) (st : ScheduleStatus)
    (h : ∀ x ∈ l₁, x.id ≠ y.id) :
    setScheduleStatusFirst (l₁ ++ y :: l₂) y.id st
      = l₁ ++ { y with status := st } :: l₂ := by
  induction l₁ with
  | nil => simp [setScheduleStatusFirst]
  | cons b t ih =>
    have hb : b.id ≠ y.id := h b (List.mem_cons_self b t)
    have ih' := ih (fun x hx => h x (List.mem_cons_of_mem b hx))
    simp only [List.cons_append, setScheduleStatusFirst, if_neg hb]
    exact congrArg (List.cons b) ih'

-- Claim theorems -------------------------------------------------------

/-- C1: for every user state vector the derived UCS equals the
integer-rounded arithmetic mean of spiritual, `100 - emotional`,
physical and financial, and whenever the `usv` field changes the
subscribe callback stores the recomputed value in `ucs`. -/
theorem ucs_is_rounded_mean_and_recomputed :
    (∀ usv : UserStateVector,
      calculateUcs usv =
        jsRound ((usv.spiritual + (100 - usv.emotional) + usv.physical +
          usv.financial) / 4)) ∧
    ∀ prevState state : AppState, state.usv ≠ prevState.usv →
      (subscribeUpdate prevState state).ucs = calculateUcs state.usv := by
  refine ⟨fun usv => rfl, fun prevState state h => ?_⟩
  simp only [subscribeUpdate, if_pos h]

/-- Witness for C1: a concrete transition changing `usv` has its `ucs`
recomputed. -/
theorem ucs_is_rounded_mean_and_recomputed_witness :
    stateB.usv ≠ stateA.usv ∧
    (subscribeUpdate stateA stateB).ucs = calculateUcs stateB.usv := by
  have hne : stateB.usv ≠ stateA.usv := by
    simp only [stateA, stateB, initialState, ne_eq, UserStateVector.mk.injEq]
    norm_num
  exact ⟨hne, ucs_is_rounded_mean_and_recomputed.2 stateA stateB hne⟩

/-- C3: the derived recommendation is the key of a minimal-score
candidate among the five dimensions built by `getRecommendation`, and
whenever the `usv` field changes the subscribe callback stores the
recomputed recommendation. -/
theorem recommendation_is_argmin_and_recomputed :
    (∀ usv : UserStateVector,
      ∃ d ∈ recommendationDimensions usv, getRecommendation usv = d.key ∧
        ∀ x ∈ recommendationDimensions usv, d.value ≤ x.value) ∧
    ∀ prevState state : AppState, state.usv ≠ prevState.usv →
      (subscribeUpdate prevState state).recommendation
        = some (getRecommendation state.usv) := by
  refine ⟨getRecommendation_isArgmin, fun prevState state h => ?_⟩
  simp only [subscribeUpdate, if_pos h]

/-- Witness for C3: a concrete transition changing `usv` has its
recommendation recomputed. -/
theorem recommendation_is_argmin_and_recomputed_witness :
    stateB.usv ≠ stateA.usv ∧
    (subscribeUpdate stateA stateB).recommendation
      = some (getRecommendation stateB.usv) := by
  have hne : stateB.usv ≠ stateA.usv := by
    simp only [stateA, stateB, initialState, ne_eq, UserStateVector.mk.injEq]
    norm_num
  exact ⟨hne, recommendation_is_argmin_and_recomputed.2 stateA stateB hne⟩

/-- C6: rehydration recomputes both derived scalars from the loaded
`usv`, whatever derived values the snapshot carried. -/
theorem rehydrate_recomputes_derived :
    ∀ (s : AppState) (u : ℤ) (r : Option AgentId),
      (rehydrate s).ucs = calculateUcs s.usv ∧
      (rehydrate s).recommendation = some (getRecommendation s.usv) ∧
      rehydrate { s with ucs := u, recommendation := r } = rehydrate s :=
  fun _ _ _ => ⟨rfl, rfl, rfl⟩

/-- C8: `updateUsvDimensions` stores each supplied dimension clamped to
`[0, 100]`, leaves an unsupplied dimension unchanged, and never touches
`spiritual` or `financial`. -/
theorem updateUsv_clamps_and_preserves :
    ∀ (s : AppState) (p e : Option ℚ),
      ((updateUsvDimensions s ⟨p, e⟩).usv.physical
        = match p with
          | some v => max 0 (min 100 v)
          | none => s.usv.physical) ∧
      ((updateUsvDimensions s ⟨p, e⟩).usv.emotional
        = match e with
          | some v => max 0 (min 100 v)
          | none => s.usv.emotional) ∧
      (updateUsvDimensions s ⟨p, e⟩).usv.spiritual = s.usv.spiritual ∧
      (updateUsvDimensions s ⟨p, e⟩).usv.financial = s.usv.financial ∧
      ∀ v : ℚ,
        0 ≤ (updateUsvDimensions s ⟨some v, e⟩).usv.physical ∧
        (updateUsvDimensions s ⟨some v, e⟩).usv.physical ≤ 100 ∧
        0 ≤ (updateUsvDimensions s ⟨p, some v⟩).usv.emotional ∧
        (updateUsvDimensions s ⟨p, some v⟩).usv.emotional ≤ 100 := by
  intro s p e
  refine ⟨?_, ?_, ?_, ?_, ?_⟩
  · cases p <;> cases e <;> simp [updateUsvDimensions, clampTo100]
  · cases p <;> cases e <;> simp [updateUsvDimensions, clampTo100]
  · cases p <;> cases e <;> simp [updateUsvDimensions, clampTo100]
  · cases p <;> cases e <;> simp [updateUsvDimensions, clampTo100]
  · intro v
    have h0 : (0 : ℚ) ≤ max 0 (min 100 v) := le_max_left 0 (min 100 v)
    have h100 : max 0 (min 100 v) ≤ 100 :=
      max_le (by norm_num) (min_le_left 100 v)
    refine ⟨?_, ?_, ?_, ?_⟩
    · cases e <;> simp [updateUsvDimensions, clampTo100]
    · cases e <;> simp [updateUsvDimensions, clampTo100, h100]
    · cases p <;> simp [updateUsvDimensions, clampTo100]
    · cases p <;> simp [updateUsvDimensions, clampTo100, h100]

/-- C9: with a null chat handle, both interactive chat-tool send
actions return the state completely unchanged. -/
theorem nullChat_handlers_noop :
    ∀ (extract : String → Option String) (s : AppState) (text : String)
      (outcome : Except String String) (now : ℤ),
      (s.doshaChat = none →
        handleDoshaSendMessage extract s text outcome now = s) ∧
      (s.routineAlignerChat = none →
        handleRoutineAlignerSendMessage s text outcome now = s) := by
  intro extract s text outcome now
  constructor
  · intro h
    simp only [handleDoshaSendMessage, h]
  · intro h
    simp only [handleRoutineAlignerSendMessage, h]

/-- Witness for C9: both handlers are no-ops on the initial state,
whose chat handles are null. -/
theorem nullChat_handlers_noop_witness :
    initialState.doshaChat = none ∧
    handleDoshaSendMessage (fun _ => none) initialState "oi"
      (Except.ok "resposta") 0 = initialState ∧
    initialState.routineAlignerChat = none ∧
    handleRoutineAlignerSendMessage initialState "oi"
      (Except.ok "resposta") 0 = initialState :=
  ⟨rfl,
   (nullChat_handlers_noop (fun _ => none) initialState "oi"
      (Except.ok "resposta") 0).1 rfl,
   rfl,
   (nullChat_handlers_noop (fun _ => none) initialState "oi"
      (Except.ok "resposta") 0).2 rfl⟩

/-- C10: `addInitialMessage` is idempotent (a second application, at
any later timestamp, changes nothing) and never modifies a non-empty
history. -/
theorem addInitialMessage_idempotent :
    ∀ (agents : AgentId → Option String) (agentId : AgentId) (s : AppState)
      (t₁ t₂ : ℤ),
      addInitialMessage agents t₂ agentId (addInitialMessage agents t₁ agentId s)
        = addInitialMessage agents t₁ agentId s ∧
      (s.chatHistories agentId ≠ [] →
        addInitialMessage agents t₁ agentId s = s) := by
  intro agents agentId s t₁ t₂
  constructor
  · cases h : agents agentId with
    | none => simp [addInitialMessage, h]
    | some msg =>
      by_cases hm : msg = ""
      · subst hm
        simp [addInitialMessage, h]
      · by_cases hemp : s.chatHistories agentId = []
        · simp [addInitialMessage, h, hm, hemp, pushMessage]
        · simp [addInitialMessage, h, hm, hemp]
  · intro hne
    cases h : agents agentId with
    | none => simp [addInitialMessage, h]
    | some msg => simp [addInitialMessage, h, hne]

/-- Witness for C10: on a state with a non-empty history the action is
the identity. -/
theorem addInitialMessage_idempotent_witness :
    chattyState.chatHistories AgentId.HEALTH ≠ [] ∧
    addInitialMessage (fun _ => some "oi") 5 AgentId.HEALTH chattyState
      = chattyState :=
  ⟨by simp [chattyState],
   (addInitialMessage_idempotent (fun _ => some "oi") AgentId.HEALTH
      chattyState 5 5).2 (by simp [chattyState])⟩

/-- C5: `handleSendMessage` raises the loading flag before awaiting the
API, lowers it once the call settles whatever the outcome, and on a
thrown error still appends a message carrying the error text to that
agent's history. -/
theorem sendMessage_loading_flag_and_error_append :
    ∀ (s : AppState) (agentId : AgentId) (text : String) (now : ℤ),
      (handleSendMessageStart s agentId text now).isLoadingMessage = true ∧
      (∀ outcome : Except String String,
        (handleSendMessage s agentId text outcome now).isLoadingMessage
          = false) ∧
      ∀ e : String,
        (handleSendMessage s agentId text (Except.error e) now).chatHistories
            agentId
          = (handleSendMessageStart s agentId text now).chatHistories agentId
            ++ [Message.mk ("agent-error-" ++ toString now) Sender.agent e now] := by
  intro s agentId text now
  refine ⟨rfl, ?_, ?_⟩
  · intro outcome
    cases outcome <;> rfl
  · intro e
    simp [handleSendMessage, handleSendMessageSettle, addToast, pushMessage]

/-- C7: the persisted snapshot keeps exactly the state's entries other
than `doshaChat` and `routineAlignerChat`, and those two keys are
absent from it. -/
theorem partialize_drops_exactly_chat_objects :
    ∀ (s : AppState) (kv : String × EntryVal),
      (kv ∈ partialize (stateEntries s) ↔
        kv ∈ stateEntries s ∧ kv.1 ≠ "doshaChat" ∧
          kv.1 ≠ "routineAlignerChat") ∧
      ∀ v : EntryVal,
        ("doshaChat", v) ∉ partialize (stateEntries s) ∧
        ("routineAlignerChat", v) ∉ partialize (stateEntries s) := by
  intro s kv
  constructor
  · simp [partialize, persistExcludedKeys, List.mem_filter, and_assoc]
  · intro v
    constructor <;>
      simp [partialize, persistExcludedKeys, List.mem_filter]

/-- C2 counterexample: a due schedule (status `'scheduled'`, time `50 ≤
100`) is sitting in the list, yet because a session is already active
the tick changes nothing — no `scheduled_session_handler` session is
started and the schedule stays `'scheduled'`. -/
theorem dueSchedule_ignored_while_session_active :
    busyStateCex.schedules = [dueScheduleCex] ∧
    dueScheduleCex.status = ScheduleStatus.scheduled ∧
    dueScheduleCex.time ≤ 100 ∧
    checkSchedulesTick (fun _ => none) (fun _ => none) busyStateCex 100
      = busyStateCex ∧
    (checkSchedulesTick (fun _ => none) (fun _ => none) busyStateCex
        100).currentSession
      ≠ some (Session.scheduled_session_handler dueScheduleCex) ∧
    ∀ sch ∈ (checkSchedulesTick (fun _ => none) (fun _ => none) busyStateCex
        100).schedules,
      sch.status ≠ ScheduleStatus.completed := by
  have h4 : checkSchedulesTick (fun _ => none) (fun _ => none) busyStateCex 100
      = busyStateCex := rfl
  refine ⟨rfl, rfl, by norm_num [dueScheduleCex], h4, ?_, ?_⟩
  · rw [h4]
    simp [busyStateCex]
  · intro sch hsch
    rw [h4] at hsch
    have hd : sch = dueScheduleCex := by
      simpa [busyStateCex, initialState] using hsch
    simp [hd, dueScheduleCex]

/-- C2 (amended): when no session is active, the first due schedule
found (statuses `'scheduled'`, time ≤ now; schedule ids assumed
distinct) is carried into a started `scheduled_session_handler` session
and its entry in the schedules list is set to `'completed'`. -/
theorem dueSchedule_triggers_session :
    ∀ (agents : AgentId → Option String) (toolMeta : String → Option String)
      (s : AppState) (now : ℤ) (due : Schedule),
      s.currentSession = none →
      (s.schedules.map Schedule.id).Nodup →
      s.schedules.find? (fun sch =>
          decide (sch.status = ScheduleStatus.scheduled) &&
            decide (sch.time ≤ now)) = some due →
      (checkSchedulesTick agents toolMeta s now).currentSession
          = some (Session.scheduled_session_handler due) ∧
      ∃ l₁ l₂, s.schedules = l₁ ++ due :: l₂ ∧
        (checkSchedulesTick agents toolMeta s now).schedules
          = l₁ ++ { due with status := ScheduleStatus.completed } :: l₂ := by
  intro agents toolMeta s now due hidle hnodup hfind
  obtain ⟨l₁, l₂, hsch, hfail⟩ := findEqSomeDecomp _ s.schedules due hfind
  have hids : ∀ x ∈ l₁, x.id ≠ due.id := by
    intro x hx
    rw [hsch, List.map_append, List.map_cons] at hnodup
    have hdisj := (List.nodup_append.mp hnodup).2.2
    have hxid : x.id ∈ l₁.map Schedule.id := List.mem_map_of_mem _ hx
    have hdid : due.id ∈ Schedule.id due :: l₂.map Schedule.id :=
      List.mem_cons_self _ _
    intro hcontra
    exact hdisj hxid (hcontra ▸ hdid)
  have htick :
      checkSchedulesTick agents toolMeta s now =
        startSession agents now
          (addToast (updateScheduleStatus s due.id ScheduleStatus.completed)
            ("Seu mentor está ligando para a sua " ++
              ((toolMeta due.activity).getD "sessão") ++ ".")
            ToastType.info now)
          (Session.scheduled_session_handler due) := by
    simp only [checkSchedulesTick, hidle, Option.isSome_none,
      Bool.false_eq_true, if_false, hfind]
  refine ⟨?_, l₁, l₂, hsch, ?_⟩
  · rw [htick]
    simp [startSession]
  · rw [htick]
    simp only [startSession, addToast, updateScheduleStatus]
    rw [hsch]
    exact setScheduleStatusFirst_append l₁ due l₂ ScheduleStatus.completed hids

/-- Witness for C2 (amended): the concrete idle state with one due
schedule starts the handler session on the tick. -/
theorem dueSchedule_triggers_session_witness :
    idleStateW.currentSession = none ∧
    (idleStateW.schedules.map Schedule.id).Nodup ∧
    idleStateW.schedules.find? (fun sch =>
        decide (sch.status = ScheduleStatus.scheduled) &&
          decide (sch.time ≤ 100)) = some dueScheduleW ∧
    (checkSchedulesTick (fun _ => none) (fun _ => none) idleStateW
        100).currentSession
      = some (Session.scheduled_session_handler dueScheduleW) := by
  have h1 : idleStateW.currentSession = none := rfl
  have h2 : (idleStateW.schedules.map Schedule.id).Nodup := by
    simp [idleStateW, initialState]
  have h3 : idleStateW.schedules.find? (fun sch =>
      decide (sch.status = ScheduleStatus.scheduled) &&
        decide (sch.time ≤ 100)) = some dueScheduleW := by
    simp [idleStateW, initialState, dueScheduleW, List.find?]
  exact ⟨h1, h2, h3,
    (dueSchedule_triggers_session (fun _ => none) (fun _ => none) idleStateW
      100 dueScheduleW h1 h2 h3).1⟩

/-- C4 counterexample: two user state vectors whose four numeric fields
are permutations of each other — so every average over the record's
fields agrees, in particular the plain mean and the inverted-emotional
mean computed below — yet the derived recommendations differ.  The
recommendation therefore does not reduce to taking an average over the
record's fields. -/
theorem recommendation_not_an_average :
    (usvSameAvgA.spiritual + usvSameAvgA.emotional + usvSameAvgA.physical +
        usvSameAvgA.financial) / 4
      = (usvSameAvgB.spiritual + usvSameAvgB.emotional + usvSameAvgB.physical +
        usvSameAvgB.financial) / 4 ∧
    (usvSameAvgA.spiritual + (100 - usvSameAvgA.emotional) +
        usvSameAvgA.physical + usvSameAvgA.financial) / 4
      = (usvSameAvgB.spiritual + (100 - usvSameAvgB.emotional) +
        usvSameAvgB.physical + usvSameAvgB.financial) / 4 ∧
    calculateUcs usvSameAvgA = calculateUcs usvSameAvgB ∧
    getRecommendation usvSameAvgA ≠ getRecommendation usvSameAvgB := by
  refine ⟨by norm_num [usvSameAvgA, usvSameAvgB], ?_, ?_, ?_⟩
  · norm_num [usvSameAvgA, usvSameAvgB]
  · norm_num [usvSameAvgA, usvSameAvgB, calculateUcs, jsRound]
  · norm_num [usvSameAvgA, usvSameAvgB, getRecommendation,
      recommendationDimensions, firstMin]
    decide

/-- C4 (amended): of the two derived computations only the UCS is an
average — the integer-rounded mean of spiritual, `100 - emotional`,
physical and financial; the recommendation instead selects the key of a
minimal-score candidate (one of whose five scores is itself an average
of two dimensions). -/
theorem derived_values_ucs_average_recommendation_argmin :
    ∀ usv : UserStateVector,
      calculateUcs usv =
        jsRound ((usv.spiritual + (100 - usv.emotional) + usv.physical +
          usv.financial) / 4) ∧
      ∃ d ∈ recommendationDimensions usv, getRecommendation usv = d.key ∧
        ∀ x ∈ recommendationDimensions usv, d.value ≤ x.value :=
  fun usv => ⟨rfl, getRecommendation_isArgmin usv⟩
